import Mathlib

/-!
Verification of the wbdis connectivity runtime (src/pool.c, src/slog.c)
against its natural-language specification.  The C code is shallowly
embedded: each callback becomes a pure Lean function from its inputs and
the relevant state to the new state together with its observable effects
(log-sink submissions, scheduled timers, connect requests).
-/

namespace Wbdis

/-! ### Constants from the C headers

`REDIS_OK` / `REDIS_ERR` and the `REDIS_REPLY_*` codes are hiredis
constants used by pool.c.  The `log_level` and `log_fsync_mode` enums live
in slog.h, which is not among the provided sources; their numbering is
pinned by slog.c itself (the `c = "EWNIDT"` table indexed by `level`, with
`WEBDIS_TRACE` as the last letter) and by the spec's "lower numeric value =
higher severity" ordering. -/

def REDIS_OK : Int := 0

def REDIS_ERR : Int := -1

def REDIS_REPLY_STRING : Nat := 1

def REDIS_REPLY_ARRAY : Nat := 2

def REDIS_REPLY_INTEGER : Nat := 3

def REDIS_REPLY_NIL : Nat := 4

def REDIS_REPLY_STATUS : Nat := 5

def REDIS_REPLY_ERROR : Nat := 6

/-- Modelled from the spec: slog.h (absent from src/) declares the
`log_level` enum; slog.c's letter table `"EWNIDT"` fixes the order
error, warning, notice, info, debug, trace with error = 0. -/
def WEBDIS_ERROR : Nat := 0

def WEBDIS_WARNING : Nat := 1

def WEBDIS_NOTICE : Nat := 2

def WEBDIS_INFO : Nat := 3

def WEBDIS_DEBUG : Nat := 4

def WEBDIS_TRACE : Nat := 5

/-- Modelled from the spec: slog.h (absent from src/) declares
`log_fsync_mode` with the three policies Never / EveryWrite / Periodic;
slog.c only compares against the symbolic names, so the exact numerals are
immaterial as long as they are distinct. -/
def LOG_FSYNC_NONE : Nat := 0

def LOG_FSYNC_ALL : Nat := 1

def LOG_FSYNC_MILLIS : Nat := 2

/-! ### Auth Reporter (pool_on_auth_complete, pool_log_auth)

`struct server` carries `auth_logged : int` guarded by `auth_log_mutex`;
the lock serialises the callback bodies, so the concurrent executions are
modelled as a sequence of atomic invocations.  A log line is recorded as
the `(level, message)` pair handed to `slog` by `pool_log_auth`. -/

/-- A hiredis reply as seen by `pool_on_auth_complete`: its `type` field
and its `str` field (NULL modelled as `none`). -/
structure Reply where
  type : Nat
  str : Option String
deriving DecidableEq, Repr

/-- The auth-relevant part of `struct server`: the `auth_logged` counter
(a C `int`, tested for truthiness and incremented). -/
structure ServerAuth where
  auth_logged : Int
deriving DecidableEq, Repr

/-- C idiom `str ? str : "(null)"` used by both pool_log_auth and
pool_on_disconnect. -/
def strOrNull (s : Option String) : String := s.getD "(null)"

/-- pool_log_auth (pool.c:135-148): formats `format % str` into a fresh
buffer sized `format_len - 2 + strlen(str or "(null)") + 1` and submits it
to `slog` at the given level.  The `%s` sits at the end of both format
strings, so the result is the format's literal part followed by the
argument; the buffer arithmetic makes `snprintf` copy it in full. -/
def pool_log_auth (level : Nat) (literal : String) (str : Option String) :
    Nat × String :=
  (level, literal ++ strOrNull str)

/-- pool_on_auth_complete (pool.c:150-173): NULL reply returns without
touching state; under the lock, an already-set `auth_logged` returns
unchanged; otherwise an error reply logs "Authentication failed: <str>",
a status reply logs "Authentication succeeded: <str>", any other type
logs nothing, and `auth_logged` is incremented in all three cases.
Returns the new state and the slog submissions made. -/
def pool_on_auth_complete (s : ServerAuth) (reply : Option Reply) :
    ServerAuth × List (Nat × String) :=
  match reply with
  | none => (s, [])
  | some r =>
    if s.auth_logged ≠ 0 then (s, [])
    else
      let logs :=
        if r.type = REDIS_REPLY_ERROR then
          [pool_log_auth WEBDIS_ERROR "Authentication failed: " r.str]
        else if r.type = REDIS_REPLY_STATUS then
          [pool_log_auth WEBDIS_INFO "Authentication succeeded: " r.str]
        else []
      (⟨s.auth_logged + 1⟩, logs)

/-- Runs a sequence of authentication completions (the mutex serialises
them into some order) from a given state, collecting all slog submissions
in order. -/
def runAuth (s : ServerAuth) : List (Option Reply) → ServerAuth × List (Nat × String)
  | [] => (s, [])
  | r :: rest =>
    let step := pool_on_auth_complete s r
    let next := runAuth step.1 rest
    (next.1, step.2 ++ next.2)

/-- Reply types that produce an authentication outcome line. -/
def replyIsOutcome (r : Reply) : Bool :=
  r.type = REDIS_REPLY_ERROR ∨ r.type = REDIS_REPLY_STATUS

/-! ### Connection Slot Pool (pool.c)

`struct pool` holds `count` and an array `ac` of `count` context pointers
allocated zeroed by pool_new; a slot array is embedded as a
`List (Option Nat)` whose length is the capacity, a handle being the
identity of a `redisAsyncContext`.  `ac->data` carries the owning pool or
NULL, so the callbacks take an `Option` of the slot array. -/

/-- Scan loop of pool_on_connect (pool.c:69-74): place the handle into the
first NULL slot and stop; if every slot is taken, fall off the loop
leaving the array unchanged. -/
def insertFirstEmpty : List (Option Nat) → Nat → List (Option Nat)
  | [], _ => []
  | none :: rest, _h => some _h :: rest
  | some x :: rest, _h => some x :: insertFirstEmpty rest _h

/-- Scan loop of pool_on_disconnect (pool.c:125-130): clear the first slot
holding this handle (identity comparison, `break` after the first hit). -/
def removeFirst : List (Option Nat) → Nat → List (Option Nat)
  | [], _ => []
  | none :: rest, _h => none :: removeFirst rest _h
  | some x :: rest, _h => if x = _h then none :: rest else some x :: removeFirst rest _h

/-- Handles currently occupying slots, in slot order. -/
def occupied (slots : List (Option Nat)) : List Nat := slots.filterMap id

/-- pool_on_connect (pool.c:56-75): with no attached pool, return at once;
with a pool, a failed status or a context error schedules a Reconnect Task
and leaves the slots alone; on success the handle goes into the first
empty slot (or nowhere when the pool is full).  Returns the new `ac->data`
pool slots and whether a Reconnect Task was scheduled. -/
def pool_on_connect (data : Option (List (Option Nat))) (h : Nat)
    (status : Int) (err : Int) : Option (List (Option Nat)) × Bool :=
  match data with
  | none => (none, false)
  | some slots =>
    if status = REDIS_ERR ∨ err ≠ 0 then (some slots, true)
    else (some (insertFirstEmpty slots h), false)

/-- pool_on_disconnect (pool.c:105-133): with no attached pool, return at
once; with a pool, a non-OK status submits
"Error disconnecting: <errstr or (null)>" to slog at error level (success
path of the calloc), the first slot holding the handle is cleared, and a
Reconnect Task is scheduled unconditionally.  Returns the new slots, the
slog submissions, and whether a Reconnect Task was scheduled. -/
def pool_on_disconnect (data : Option (List (Option Nat))) (h : Nat)
    (status : Int) (errstr : Option String) :
    Option (List (Option Nat)) × List (Nat × String) × Bool :=
  match data with
  | none => (none, [], false)
  | some slots =>
    let logs :=
      if status ≠ REDIS_OK then
        [(WEBDIS_ERROR, "Error disconnecting: " ++ strOrNull errstr)]
      else []
    (some (removeFirst slots h), logs, true)

/-- Event delivered to a pool by the hiredis adapter: a connect
completion (with its status and the context's `err` field) or a
disconnect (with its status and the context's `errstr`). -/
inductive PoolEvent where
  | connect (h : Nat) (status : Int) (err : Int)
  | disconnect (h : Nat) (status : Int) (errstr : Option String)
deriving DecidableEq, Repr

/-- Slot-array effect of one event, through the pool.c callbacks with the
pool attached. -/
def stepPool (slots : List (Option Nat)) : PoolEvent → List (Option Nat)
  | .connect h status err => ((pool_on_connect (some slots) h status err).1).getD slots
  | .disconnect h status es => ((pool_on_disconnect (some slots) h status es).1).getD slots

/-- Slot array after a whole event sequence. -/
def runPool (slots : List (Option Nat)) : List PoolEvent → List (Option Nat)
  | [] => slots
  | e :: rest => runPool (stepPool slots e) rest

/-- An event is admissible in a state when a successful connect carries a
handle not already sitting in a slot: hiredis invokes the connect callback
exactly once, for a freshly allocated context, so a live context already
in a slot can never complete a new connect. -/
def validEvent (slots : List (Option Nat)) : PoolEvent → Bool
  | .connect h status err =>
      if status = REDIS_ERR ∨ err ≠ 0 then true
      else ! (decide (h ∈ occupied slots))
  | .disconnect _ _ _ => true

/-- Admissibility of a whole event sequence from a state. -/
def validFrom (slots : List (Option Nat)) : List PoolEvent → Bool
  | [] => true
  | e :: rest => validEvent slots e && validFrom (stepPool slots e) rest

/-! ### Reconnect Scheduler (pool_schedule_reconnect, pool_can_connect) -/

/-- The fields of `struct pool` read by the scheduler: the owner's event
base (`p->w->base`, identified by a number) and the configured database
index (`p->cfg->database`). -/
structure PoolCtx where
  base : Nat
  database : Int
deriving DecidableEq, Repr

/-- A timer as registered with libevent: the base it was bound to by
event_base_set, whether EV_PERSIST is set (evtimer_set never sets it, so
the timer is one-shot), the timeout handed to evtimer_add, and the
pool_reconnect payload. -/
structure ScheduledTimer where
  base : Nat
  persistent : Bool
  tv_sec : Nat
  tv_usec : Nat
  task : PoolCtx
deriving DecidableEq, Repr

/-- Microseconds represented by a `struct timeval`. -/
def timerMicros (sec usec : Nat) : Nat := sec * 1000000 + usec

/-- pool_schedule_reconnect (pool.c:93-103): allocates a pool_reconnect
holding the pool, sets tv to 0 s + 100 * 1000 µs, evtimer_set's the event
with pool_can_connect as callback, binds it to `p->w->base` and adds it. -/
def pool_schedule_reconnect (p : PoolCtx) : ScheduledTimer :=
  { base := p.base, persistent := false, tv_sec := 0, tv_usec := 100 * 1000, task := p }

/-- Observable actions of a fired Reconnect Task. -/
inductive FireAction where
  | freeTask
  | connectRequest (db : Int) (isReconnect : Bool)
deriving DecidableEq, Repr

/-- pool_can_connect (pool.c:83-91): frees the pool_reconnect storage and
then calls `pool_connect(p, p->cfg->database, 1)`, in that order. -/
def pool_can_connect (p : PoolCtx) : List FireAction :=
  [FireAction.freeTask, FireAction.connectRequest p.database true]

/-! ### Log Sink (slog.c)

Buffers are `List Char` so that truncation is `List.take`; the pid and
timestamp fields are inputs (the pid rendered by `%d` — at most 11
characters for a 32-bit int — and the `strftime` output, 15 characters
for the fixed format `%d %b %H:%M:%S` or the 19-character fallback
marker).  `SLOG_MSG_MAX_LEN` is a parameter `msgMax`, constrained to at
least 64 exactly as the `#error` guard at slog.c:43-45 demands. -/

/-- One operation performed on the sink descriptor: a `write` of `count`
bytes drawn from the formatted buffer, or an `fsync`. -/
inductive SinkOp where
  | wr (content : List Char) (count : Nat)
  | flush
deriving DecidableEq, Repr

/-- Level letter (slog.c:125,150): `c = "EWNIDT"`, `c[5]` for
WEBDIS_TRACE and `c[level]` otherwise; levels beyond the enum are out of
range in C, the model answers 'T' for them. -/
def levelLetter (level : Nat) : Char :=
  if level = WEBDIS_TRACE then 'T'
  else ['E', 'W', 'N', 'I', 'D', 'T'].getD level 'T'

/-- Message-limiting step (slog.c:136-137): `sz = sz ? sz : strlen(body)`
then `snprintf(msg, min(sz+1, 1 + msgMax), "%s", body)`, which stores at
most `min sz msgMax` characters of the body. -/
def slogMsg (msgMax sz : Nat) (body : List Char) : List Char :=
  let sz1 := if sz = 0 then body.length else sz
  body.take (min sz1 msgMax)

/-- The full line `snprintf` would format (slog.c:151-152):
`"[%d] %s %c %s\n"` applied to pid, timestamp, level letter and message. -/
def slogLineFull (pid time : List Char) (letter : Char) (msg : List Char) :
    List Char :=
  ['['] ++ pid ++ [']', ' '] ++ time ++ [' ', letter, ' '] ++ msg ++ ['\n']

/-- slog_internal (slog.c:123-160): bail out on an unset descriptor;
truncate the message; format the line into `char line[2 *
SLOG_MSG_MAX_LEN]` (snprintf stores at most `2 * msgMax - 1` characters
and returns the untruncated length `line_sz`); `write(fd, line, line_sz)`;
fsync when the policy is LOG_FSYNC_ALL. -/
def slog_internal (msgMax fsyncMode : Nat) (fd : Int) (pid time : List Char)
    (level : Nat) (body : List Char) (sz : Nat) : List SinkOp :=
  if fd = 0 then []
  else
    let msg := slogMsg msgMax sz body
    let full := slogLineFull pid time (levelLetter level) msg
    SinkOp.wr (full.take (2 * msgMax - 1)) full.length ::
      (if fsyncMode = LOG_FSYNC_ALL then [SinkOp.flush] else [])

/-- slog (slog.c:165-170): forwards to slog_internal only when
`level <= s->cfg->verbosity`. -/
def slog (verbosity msgMax fsyncMode : Nat) (fd : Int) (pid time : List Char)
    (level : Nat) (body : List Char) (sz : Nat) : List SinkOp :=
  if level ≤ verbosity then slog_internal msgMax fsyncMode fd pid time level body sz
  else []

/-- slog_enabled (slog.c:116-118): `level <= s->cfg->verbosity ? 1 : 0`. -/
def slog_enabled (verbosity level : Nat) : Nat :=
  if level ≤ verbosity then 1 else 0

/-- Bytes handed to `write` by a list of sink operations. -/
def bytesOut : List SinkOp → Nat
  | [] => 0
  | SinkOp.wr _ n :: rest => n + bytesOut rest
  | SinkOp.flush :: rest => bytesOut rest

/-- The recurring fsync timer (EV_PERSIST) with its timeval. -/
structure FsyncTimer where
  persistent : Bool
  tv_sec : Nat
  tv_usec : Nat
deriving DecidableEq, Repr

/-- slog_fsync_init (slog.c:89-111): returns immediately unless the mode
is LOG_FSYNC_MILLIS; otherwise installs a persistent timer whose timeval
splits `period_millis * 1000` microseconds (success path of event_new and
evtimer_add). -/
def slog_fsync_init (mode periodMillis : Nat) : Option FsyncTimer :=
  if mode ≠ LOG_FSYNC_MILLIS then none
  else
    let periodUsec := periodMillis * 1000
    some { persistent := true,
           tv_sec := periodUsec / 1000000,
           tv_usec := periodUsec % 1000000 }

/-- slog_fsync_tick (slog.c:71-87): the timer callback fsyncs the sink. -/
def slog_fsync_tick : List SinkOp := [SinkOp.flush]

theorem pool_on_auth_complete_of_logged (s : ServerAuth) (r : Option Reply)
    (h : s.auth_logged ≠ 0) : pool_on_auth_complete s r = (s, []) := by
  cases r with
  | none => rfl
  | some r => simp [pool_on_auth_complete, h]

theorem runAuth_of_logged (s : ServerAuth) (h : s.auth_logged ≠ 0) :
    ∀ rs : List (Option Reply), runAuth s rs = (s, []) := by
  intro rs
  induction rs with
  | nil => rfl
  | cons r rest ih =>
      simp [runAuth, pool_on_auth_complete_of_logged s r h, ih]

/-- Central accounting lemma: starting from the fresh state
(`auth_logged = 0`), the lines produced by a whole run are exactly the
lines of the first non-NULL reply (if any), because that completion sets
the flag and every later one is a no-op. -/
theorem runAuth_logs_eq (rs : List (Option Reply)) :
    (runAuth ⟨0⟩ rs).2 =
      (match (rs.filterMap id).head? with
        | some r =>
            if r.type = REDIS_REPLY_ERROR then
              [pool_log_auth WEBDIS_ERROR "Authentication failed: " r.str]
            else if r.type = REDIS_REPLY_STATUS then
              [pool_log_auth WEBDIS_INFO "Authentication succeeded: " r.str]
            else []
        | none => []) := by
  induction rs with
  | nil => rfl
  | cons r rest ih =>
      cases r with
      | none =>
          simpa [runAuth, pool_on_auth_complete] using ih
      | some r =>
          have hrun : runAuth ⟨(1 : Int)⟩ rest = (⟨(1 : Int)⟩, []) :=
            runAuth_of_logged _ (by decide) rest
          simp [runAuth, pool_on_auth_complete, hrun]

/-- C1 (counterexample): the claim "exactly one authentication log line is
produced if at least one completion carries a non-empty error or status
reply" fails on the code.  The sequence [integer-typed reply, error-typed
reply "ERR"] contains an error reply, yet produces zero log lines: the
integer-typed completion sets `auth_logged` without logging, and the later
error-typed completion then returns immediately. -/
theorem C1_counterexample_other_then_error :
    (([some ⟨REDIS_REPLY_INTEGER, none⟩, some ⟨REDIS_REPLY_ERROR, some "ERR"⟩] :
        List (Option Reply)).any
      (fun r => match r with | some x => replyIsOutcome x | none => false) = true) ∧
    (runAuth ⟨0⟩
      [some ⟨REDIS_REPLY_INTEGER, none⟩,
       some ⟨REDIS_REPLY_ERROR, some "ERR"⟩]).2.length = 0 := by
  decide

/-- C1 (amended): over any finite sequence of completed authentication
callbacks run from the fresh state, exactly one authentication log line is
produced if the first non-missing reply is error- or status-typed, and
zero lines are produced otherwise — in particular when every completion
carries a missing (NULL) reply, or when the first non-missing reply has
some other type (which consumes the once-only flag without logging). -/
theorem C1_auth_lines_of_first_reply (rs : List (Option Reply)) :
    (runAuth ⟨0⟩ rs).2.length =
      (match (rs.filterMap id).head? with
        | some r => if replyIsOutcome r then 1 else 0
        | none => 0) := by
  rw [runAuth_logs_eq]
  cases hh : (rs.filterMap id).head? with
  | none => rfl
  | some r =>
      by_cases he : r.type = REDIS_REPLY_ERROR
      · simp [replyIsOutcome, he]
      · by_cases hs : r.type = REDIS_REPLY_STATUS
        · simp [replyIsOutcome, he, hs, REDIS_REPLY_STATUS, REDIS_REPLY_ERROR]
        · simp [replyIsOutcome, he, hs]

/-- C3: with a non-NULL reply, (a) an already-set `auth_logged` makes the
callback a no-op (state unchanged, no line); (b) from the fresh state the
flag becomes set, an error-typed reply yields exactly the line
"Authentication failed: <message>" at error level, a status-typed reply
exactly "Authentication succeeded: <message>" at info level, and any other
type no line; (c) consequently any whole execution writes at most one
authentication outcome line. -/
theorem C3_auth_outcome_logged_at_most_once :
    (∀ (s : ServerAuth) (r : Reply), s.auth_logged ≠ 0 →
        pool_on_auth_complete s (some r) = (s, [])) ∧
    (∀ (s : ServerAuth) (r : Reply), s.auth_logged = 0 →
        (pool_on_auth_complete s (some r)).1.auth_logged ≠ 0 ∧
        (r.type = REDIS_REPLY_ERROR →
          (pool_on_auth_complete s (some r)).2 =
            [(WEBDIS_ERROR, "Authentication failed: " ++ strOrNull r.str)]) ∧
        (r.type = REDIS_REPLY_STATUS →
          (pool_on_auth_complete s (some r)).2 =
            [(WEBDIS_INFO, "Authentication succeeded: " ++ strOrNull r.str)]) ∧
        (r.type ≠ REDIS_REPLY_ERROR → r.type ≠ REDIS_REPLY_STATUS →
          (pool_on_auth_complete s (some r)).2 = [])) ∧
    (∀ rs : List (Option Reply), (runAuth ⟨0⟩ rs).2.length ≤ 1) := by
  refine ⟨?_, ?_, ?_⟩
  · intro s r h
    exact pool_on_auth_complete_of_logged s (some r) h
  · intro s r h0
    refine ⟨?_, ?_, ?_, ?_⟩
    · simp [pool_on_auth_complete, h0]
    · intro he
      simp [pool_on_auth_complete, h0, he, pool_log_auth]
    · intro hs
      have he : ¬ r.type = REDIS_REPLY_ERROR := by
        intro h; rw [h] at hs; exact absurd hs (by decide)
      simp [pool_on_auth_complete, h0, he, hs, pool_log_auth,
        REDIS_REPLY_STATUS, REDIS_REPLY_ERROR]
    · intro he hs
      simp [pool_on_auth_complete, h0, he, hs]
  · intro rs
    rw [runAuth_logs_eq]
    cases hh : (rs.filterMap id).head? with
    | none => simp
    | some r =>
        by_cases he : r.type = REDIS_REPLY_ERROR
        · simp [he]
        · by_cases hs : r.type = REDIS_REPLY_STATUS
          · simp [he, hs, REDIS_REPLY_STATUS, REDIS_REPLY_ERROR]
          · simp [he, hs]

/-- Witness for C3 at concrete inputs. -/
theorem C3_auth_outcome_logged_at_most_once_witness :
    pool_on_auth_complete ⟨1⟩ (some ⟨REDIS_REPLY_ERROR, some "x"⟩) = (⟨1⟩, []) ∧
    (pool_on_auth_complete ⟨0⟩ (some ⟨REDIS_REPLY_ERROR, some "x"⟩)).2 =
      [(WEBDIS_ERROR, "Authentication failed: " ++ strOrNull (some "x"))] ∧
    (runAuth ⟨0⟩ [some ⟨REDIS_REPLY_ERROR, some "x"⟩]).2.length ≤ 1 :=
  ⟨C3_auth_outcome_logged_at_most_once.1 ⟨1⟩ ⟨REDIS_REPLY_ERROR, some "x"⟩ (by decide),
   (C3_auth_outcome_logged_at_most_once.2.1 ⟨0⟩ ⟨REDIS_REPLY_ERROR, some "x"⟩
      (by decide)).2.1 (by decide),
   C3_auth_outcome_logged_at_most_once.2.2 [some ⟨REDIS_REPLY_ERROR, some "x"⟩]⟩

theorem occupied_cons_none (l : List (Option Nat)) :
    occupied (none :: l) = occupied l := rfl

theorem occupied_cons_some (x : Nat) (l : List (Option Nat)) :
    occupied (some x :: l) = x :: occupied l := rfl

theorem mem_occupied_insert (slots : List (Option Nat)) (h y : Nat)
    (hy : y ∈ occupied (insertFirstEmpty slots h)) :
    y = h ∨ y ∈ occupied slots := by
  induction slots with
  | nil => simp [insertFirstEmpty, occupied] at hy
  | cons a rest ih =>
      cases a with
      | none =>
          rw [show insertFirstEmpty (none :: rest) h = some h :: rest from rfl,
            occupied_cons_some] at hy
          rcases List.mem_cons.mp hy with h1 | h1
          · exact Or.inl h1
          · exact Or.inr (by rw [occupied_cons_none]; exact h1)
      | some x =>
          rw [show insertFirstEmpty (some x :: rest) h =
              some x :: insertFirstEmpty rest h from rfl,
            occupied_cons_some] at hy
          rcases List.mem_cons.mp hy with h1 | h1
          · exact Or.inr (by rw [occupied_cons_some, h1]; exact List.mem_cons_self x _)
          · rcases ih h1 with h2 | h2
            · exact Or.inl h2
            · exact Or.inr (by rw [occupied_cons_some]; exact List.mem_cons_of_mem x h2)

theorem nodup_occupied_insert (slots : List (Option Nat)) (h : Nat)
    (hfresh : h ∉ occupied slots) (hnd : (occupied slots).Nodup) :
    (occupied (insertFirstEmpty slots h)).Nodup := by
  induction slots with
  | nil => simp [insertFirstEmpty, occupied]
  | cons a rest ih =>
      cases a with
      | none =>
          rw [occupied_cons_none] at hfresh hnd
          rw [show insertFirstEmpty (none :: rest) h = some h :: rest from rfl,
            occupied_cons_some]
          exact List.nodup_cons.mpr ⟨hfresh, hnd⟩
      | some x =>
          rw [occupied_cons_some] at hfresh hnd
          have hx : h ≠ x := fun he => hfresh (he ▸ List.mem_cons_self x _)
          obtain ⟨hxnot, hndr⟩ := List.nodup_cons.mp hnd
          have hfr : h ∉ occupied rest := fun hm => hfresh (List.mem_cons_of_mem x hm)
          rw [show insertFirstEmpty (some x :: rest) h =
              some x :: insertFirstEmpty rest h from rfl,
            occupied_cons_some]
          refine List.nodup_cons.mpr ⟨?_, ih hfr hndr⟩
          intro hmem
          rcases mem_occupied_insert rest h x hmem with h1 | h1
          · exact hx h1.symm
          · exact hxnot h1

theorem occupied_removeFirst_sublist (slots : List (Option Nat)) (h : Nat) :
    List.Sublist (occupied (removeFirst slots h)) (occupied slots) := by
  induction slots with
  | nil => simp [removeFirst, occupied]
  | cons a rest ih =>
      cases a with
      | none =>
          rw [show removeFirst (none :: rest) h = none :: removeFirst rest h from rfl,
            occupied_cons_none, occupied_cons_none]
          exact ih
      | some x =>
          by_cases hx : x = h
          · rw [show removeFirst (some x :: rest) h = none :: rest by simp [removeFirst, hx],
              occupied_cons_none, occupied_cons_some]
            exact List.sublist_cons_self x (occupied rest)
          · rw [show removeFirst (some x :: rest) h = some x :: removeFirst rest h by
                simp [removeFirst, hx],
              occupied_cons_some, occupied_cons_some]
            exact List.Sublist.cons₂ x ih

theorem nodup_occupied_step (slots : List (Option Nat)) (e : PoolEvent)
    (hv : validEvent slots e = true) (hnd : (occupied slots).Nodup) :
    (occupied (stepPool slots e)).Nodup := by
  cases e with
  | connect h status err =>
      by_cases hc : status = REDIS_ERR ∨ err ≠ 0
      · simpa [stepPool, pool_on_connect, hc] using hnd
      · have hfresh : h ∉ occupied slots := by
          simp [validEvent, hc] at hv
          exact hv
        simpa [stepPool, pool_on_connect, hc] using
          nodup_occupied_insert slots h hfresh hnd
  | disconnect h status es =>
      simpa [stepPool, pool_on_disconnect] using
        (occupied_removeFirst_sublist slots h).nodup hnd

theorem nodup_occupied_runPool (events : List PoolEvent) (slots : List (Option Nat))
    (hnd : (occupied slots).Nodup) (hv : validFrom slots events = true) :
    (occupied (runPool slots events)).Nodup := by
  induction events generalizing slots with
  | nil => simpa [runPool] using hnd
  | cons e rest ih =>
      rw [show validFrom slots (e :: rest) =
          (validEvent slots e && validFrom (stepPool slots e) rest) from rfl,
        Bool.and_eq_true] at hv
      exact ih (stepPool slots e) (nodup_occupied_step slots e hv.1 hnd) hv.2

/-- C2: over every admissible sequence of connect-completion and
disconnect events (admissible: a successful connect delivers a freshly
allocated context, hence a handle not currently in a slot), every
reachable slot array holds each handle in at most one position; a slot
holds at most one handle by construction of the array. -/
theorem C2_slot_exclusivity (slots : List (Option Nat)) (events : List PoolEvent)
    (hnd : (occupied slots).Nodup) (hv : validFrom slots events = true)
    (hh : Nat) : (occupied (runPool slots events)).count hh ≤ 1 :=
  List.nodup_iff_count_le_one.mp (nodup_occupied_runPool events slots hnd hv) hh

/-- Witness for C2: two successful connects, one unclean disconnect, then
a reconnect of the removed handle, on a two-slot pool. -/
theorem C2_slot_exclusivity_witness :
    (occupied [none, none]).Nodup ∧
    validFrom [none, none]
      [PoolEvent.connect 1 0 0, PoolEvent.connect 2 0 0,
       PoolEvent.disconnect 1 (-1) (some "err"), PoolEvent.connect 1 0 0] = true ∧
    (occupied (runPool [none, none]
      [PoolEvent.connect 1 0 0, PoolEvent.connect 2 0 0,
       PoolEvent.disconnect 1 (-1) (some "err"), PoolEvent.connect 1 0 0])).count 1 ≤ 1 :=
  ⟨by decide, by decide,
   C2_slot_exclusivity [none, none]
     [PoolEvent.connect 1 0 0, PoolEvent.connect 2 0 0,
      PoolEvent.disconnect 1 (-1) (some "err"), PoolEvent.connect 1 0 0]
     (by decide) (by decide) 1⟩

theorem insertFirstEmpty_of_full (slots : List (Option Nat)) (h : Nat)
    (hfull : ∀ i (hi : i < slots.length), slots[i] ≠ none) :
    insertFirstEmpty slots h = slots := by
  induction slots with
  | nil => rfl
  | cons a rest ih =>
      cases a with
      | none => exact absurd (by simp : (none :: rest)[0] = none) (hfull 0 (by simp))
      | some x =>
          have hrest : ∀ i (hi : i < rest.length), rest[i] ≠ none := by
            intro i hi
            have := hfull (i + 1) (by simpa using Nat.succ_lt_succ hi)
            simpa using this
          simp [insertFirstEmpty, ih hrest]

theorem insertFirstEmpty_of_firstEmpty (slots : List (Option Nat)) (h : Nat) :
    ∀ (i : Nat) (hi : i < slots.length), slots[i] = none →
    (∀ j (hj : j < slots.length), j < i → slots[j] ≠ none) →
    insertFirstEmpty slots h = slots.set i (some h) := by
  induction slots with
  | nil => intro i hi; exact absurd hi (by simp)
  | cons a rest ih =>
      intro i hi hnone hbefore
      cases i with
      | zero =>
          have ha : a = none := by simpa using hnone
          subst ha
          rfl
      | succ k =>
          have ha : a ≠ none := by
            have := hbefore 0 (by simp) (Nat.succ_pos k)
            simpa using this
          have hk : k < rest.length := by simpa using hi
          have hnone1 : rest[k] = none := by simpa using hnone
          have hbefore1 : ∀ j (hj : j < rest.length), j < k → rest[j] ≠ none := by
            intro j hj hjk
            have := hbefore (j + 1) (by simpa using Nat.succ_lt_succ hj)
              (Nat.succ_lt_succ hjk)
            simpa using this
          cases a with
          | none => exact absurd rfl ha
          | some x => simp [insertFirstEmpty, ih k hk hnone1 hbefore1]

theorem removeFirst_of_not_mem (slots : List (Option Nat)) (h : Nat)
    (hnm : h ∉ occupied slots) : removeFirst slots h = slots := by
  induction slots with
  | nil => rfl
  | cons a rest ih =>
      cases a with
      | none =>
          rw [occupied_cons_none] at hnm
          simp [removeFirst, ih hnm]
      | some x =>
          rw [occupied_cons_some] at hnm
          have hx : ¬ x = h := fun he => hnm (he ▸ List.mem_cons_self x _)
          have hr : h ∉ occupied rest := fun hm => hnm (List.mem_cons_of_mem x hm)
          simp [removeFirst, hx, ih hr]

theorem removeFirst_of_firstAt (slots : List (Option Nat)) (h : Nat) :
    ∀ (i : Nat) (hi : i < slots.length), slots[i] = some h →
    (∀ j (hj : j < slots.length), j < i → slots[j] ≠ some h) →
    removeFirst slots h = slots.set i none := by
  induction slots with
  | nil => intro i hi; exact absurd hi (by simp)
  | cons a rest ih =>
      intro i hi hat hbefore
      cases i with
      | zero =>
          have ha : a = some h := by simpa using hat
          subst ha
          simp [removeFirst]
      | succ k =>
          have ha : a ≠ some h := by
            have := hbefore 0 (by simp) (Nat.succ_pos k)
            simpa using this
          have hk : k < rest.length := by simpa using hi
          have hat1 : rest[k] = some h := by simpa using hat
          have hbefore1 : ∀ j (hj : j < rest.length), j < k → rest[j] ≠ some h := by
            intro j hj hjk
            have := hbefore (j + 1) (by simpa using Nat.succ_lt_succ hj)
              (Nat.succ_lt_succ hjk)
            simpa using this
          cases a with
          | none => simp [removeFirst, ih k hk hat1 hbefore1]
          | some x =>
              have hx : ¬ x = h := fun he => ha (by rw [he])
              simp [removeFirst, hx, ih k hk hat1 hbefore1]

/-- C4: with a pool attached, a failed status or a context error leaves
every slot untouched and schedules a Reconnect Task; on success no task
is scheduled and the handle lands in the first empty slot of the linear
scan from index 0 — and when no slot is empty, the array is unchanged
and the handle tracked nowhere. -/
theorem C4_connect_success_first_empty_slot (slots : List (Option Nat))
    (h : Nat) (status err : Int) :
    (status = REDIS_ERR ∨ err ≠ 0 →
      pool_on_connect (some slots) h status err = (some slots, true)) ∧
    (¬ (status = REDIS_ERR ∨ err ≠ 0) →
      (pool_on_connect (some slots) h status err).2 = false ∧
      ((∀ i (hi : i < slots.length), slots[i] ≠ none) →
        pool_on_connect (some slots) h status err = (some slots, false)) ∧
      (∀ i (hi : i < slots.length), slots[i] = none →
        (∀ j (hj : j < slots.length), j < i → slots[j] ≠ none) →
        pool_on_connect (some slots) h status err =
          (some (slots.set i (some h)), false))) := by
  constructor
  · intro hc
    simp [pool_on_connect, hc]
  · intro hc
    refine ⟨by simp [pool_on_connect, hc], ?_, ?_⟩
    · intro hfull
      simp [pool_on_connect, hc, insertFirstEmpty_of_full slots h hfull]
    · intro i hi hnone hbefore
      simp [pool_on_connect, hc,
        insertFirstEmpty_of_firstEmpty slots h i hi hnone hbefore]

/-- Witness for C4: a failed connect on a half-full pool, and a
successful connect landing in slot 1 of [some 5, none]. -/
theorem C4_connect_success_first_empty_slot_witness :
    pool_on_connect (some [some 5, none]) 7 REDIS_ERR 0 = (some [some 5, none], true) ∧
    pool_on_connect (some [some 5, none]) 7 0 0 =
      (some ([some 5, none].set 1 (some 7)), false) :=
  ⟨(C4_connect_success_first_empty_slot [some 5, none] 7 REDIS_ERR 0).1 (by decide),
   ((C4_connect_success_first_empty_slot [some 5, none] 7 0 0).2 (by decide)).2.2
     1 (by decide) (by decide) (by decide)⟩

/-- C5: with a pool attached, the disconnect callback always schedules a
Reconnect Task, submits exactly the line
"Error disconnecting: <errstr or (null)>" at error level precisely when
the status is not REDIS_OK, leaves the array unchanged when the handle
occupies no slot, and clears the first slot holding the handle
otherwise. -/
theorem C5_disconnect_clears_logs_reconnects (slots : List (Option Nat))
    (h : Nat) (status : Int) (errstr : Option String) :
    (pool_on_disconnect (some slots) h status errstr).2.2 = true ∧
    (status ≠ REDIS_OK →
      (pool_on_disconnect (some slots) h status errstr).2.1 =
        [(WEBDIS_ERROR, "Error disconnecting: " ++ strOrNull errstr)]) ∧
    (status = REDIS_OK →
      (pool_on_disconnect (some slots) h status errstr).2.1 = []) ∧
    (h ∉ occupied slots →
      (pool_on_disconnect (some slots) h status errstr).1 = some slots) ∧
    (∀ i (hi : i < slots.length), slots[i] = some h →
      (∀ j (hj : j < slots.length), j < i → slots[j] ≠ some h) →
      (pool_on_disconnect (some slots) h status errstr).1 =
        some (slots.set i none)) := by
  refine ⟨rfl, ?_, ?_, ?_, ?_⟩
  · intro hs
    simp [pool_on_disconnect, hs]
  · intro hs
    simp [pool_on_disconnect, hs]
  · intro hnm
    simp [pool_on_disconnect, removeFirst_of_not_mem slots h hnm]
  · intro i hi hat hbefore
    simp [pool_on_disconnect, removeFirst_of_firstAt slots h i hi hat hbefore]

/-- Witness for C5: an unclean disconnect of handle 7 sitting in slot 1
of [some 3, some 7], with no backend error string. -/
theorem C5_disconnect_clears_logs_reconnects_witness :
    (pool_on_disconnect (some [some 3, some 7]) 7 REDIS_ERR none).2.2 = true ∧
    (pool_on_disconnect (some [some 3, some 7]) 7 REDIS_ERR none).2.1 =
      [(WEBDIS_ERROR, "Error disconnecting: " ++ strOrNull none)] ∧
    (pool_on_disconnect (some [some 3, some 7]) 7 REDIS_ERR none).1 =
      some ([some 3, some 7].set 1 none) :=
  ⟨(C5_disconnect_clears_logs_reconnects [some 3, some 7] 7 REDIS_ERR none).1,
   (C5_disconnect_clears_logs_reconnects [some 3, some 7] 7 REDIS_ERR none).2.1
     (by decide),
   (C5_disconnect_clears_logs_reconnects [some 3, some 7] 7 REDIS_ERR none).2.2.2.2
     1 (by decide) (by decide) (by decide)⟩

/-- C6: a scheduled Reconnect Task is a one-shot (non-persistent) timer
on the pool owner's event base with a fire delay of exactly 100 ms
(100000 µs), and firing first frees the task's storage and then issues
exactly one connect request for the pool's configured database index
with the reconnect flag set. -/
theorem C6_reconnect_task_100ms_one_shot (p : PoolCtx) :
    (pool_schedule_reconnect p).persistent = false ∧
    (pool_schedule_reconnect p).base = p.base ∧
    timerMicros (pool_schedule_reconnect p).tv_sec
      (pool_schedule_reconnect p).tv_usec = 100 * 1000 ∧
    pool_can_connect (pool_schedule_reconnect p).task =
      [FireAction.freeTask, FireAction.connectRequest p.database true] ∧
    (pool_can_connect (pool_schedule_reconnect p).task).countP
      (fun a => match a with
        | FireAction.connectRequest _ _ => true
        | _ => false) = 1 := by
  refine ⟨rfl, rfl, ?_, rfl, ?_⟩
  · simp [timerMicros, pool_schedule_reconnect]
  · simp [pool_can_connect, List.countP, List.countP.go]

/-- C10: a connect or disconnect callback on a handle with no attached
pool (NULL user-data) changes no pool state, submits no log line even
for an unclean disconnect status, and schedules no Reconnect Task. -/
theorem C10_no_pool_attached_noop (h : Nat) (status err : Int)
    (errstr : Option String) :
    pool_on_connect none h status err = (none, false) ∧
    pool_on_disconnect none h status errstr = (none, [], false) :=
  ⟨rfl, rfl⟩

theorem bytesOut_wr (c : List Char) (n : Nat) (rest : List SinkOp) :
    bytesOut (SinkOp.wr c n :: rest) = n + bytesOut rest := rfl

theorem slogLineFull_length (pid time : List Char) (letter : Char)
    (msg : List Char) :
    (slogLineFull pid time letter msg).length =
      pid.length + time.length + msg.length + 7 := by
  simp [slogLineFull]
  omega

theorem slogMsg_length_le (msgMax sz : Nat) (body : List Char) :
    (slogMsg msgMax sz body).length ≤ msgMax := by
  simp only [slogMsg, List.length_take]
  exact le_trans (Nat.min_le_left _ _) (Nat.min_le_right _ _)

/-- C7: on an initialized sink (nonzero descriptor), a level numerically
above the verbosity threshold writes no bytes, a level at or below it
writes at least one byte, and the gate agrees with slog_enabled (lower
numeric value = higher severity, emitted iff level ≤ threshold). -/
theorem C7_level_gating (verbosity msgMax fsyncMode : Nat) (fd : Int)
    (pid time : List Char) (level : Nat) (body : List Char) (sz : Nat)
    (hfd : fd ≠ 0) :
    (verbosity < level →
      bytesOut (slog verbosity msgMax fsyncMode fd pid time level body sz) = 0) ∧
    (level ≤ verbosity →
      0 < bytesOut (slog verbosity msgMax fsyncMode fd pid time level body sz)) ∧
    (slog_enabled verbosity level = 1 ↔ level ≤ verbosity) := by
  refine ⟨?_, ?_, ?_⟩
  · intro hgt
    have hne : ¬ level ≤ verbosity := Nat.not_le.mpr hgt
    simp [slog, hne, bytesOut]
  · intro hle
    rw [slog, if_pos hle, slog_internal, if_neg hfd]
    rw [bytesOut_wr, slogLineFull_length]
    omega
  · constructor
    · intro h1
      by_contra hne
      simp [slog_enabled, hne] at h1
    · intro hle
      simp [slog_enabled, hle]

/-- Witness for C7 on the stderr descriptor with verbosity WEBDIS_WARNING. -/
theorem C7_level_gating_witness :
    ((2 : Int) ≠ 0) ∧
    (WEBDIS_WARNING < WEBDIS_INFO →
      bytesOut (slog WEBDIS_WARNING 4096 LOG_FSYNC_NONE 2 "99".data
        "01 Jan 00:00:00".data WEBDIS_INFO "hello".data 5) = 0) ∧
    (WEBDIS_ERROR ≤ WEBDIS_WARNING →
      0 < bytesOut (slog WEBDIS_WARNING 4096 LOG_FSYNC_NONE 2 "99".data
        "01 Jan 00:00:00".data WEBDIS_ERROR "hello".data 5)) ∧
    (slog_enabled WEBDIS_WARNING WEBDIS_ERROR = 1 ↔ WEBDIS_ERROR ≤ WEBDIS_WARNING) :=
  ⟨by decide,
   (C7_level_gating WEBDIS_WARNING 4096 LOG_FSYNC_NONE 2 "99".data
      "01 Jan 00:00:00".data WEBDIS_INFO "hello".data 5 (by decide)).1,
   (C7_level_gating WEBDIS_WARNING 4096 LOG_FSYNC_NONE 2 "99".data
      "01 Jan 00:00:00".data WEBDIS_ERROR "hello".data 5 (by decide)).2.1,
   (C7_level_gating WEBDIS_WARNING 4096 LOG_FSYNC_NONE 2 "99".data
      "01 Jan 00:00:00".data WEBDIS_ERROR "hello".data 5 (by decide)).2.2⟩

/-- C8: for a body of any length (far beyond the configured maximum
included), the message stored in `char msg[1 + SLOG_MSG_MAX_LEN]` holds at
most msgMax characters — the body is truncated before the line is
formatted — the formatted line always fits `char line[2 *
SLOG_MSG_MAX_LEN]` (at most `2 * msgMax - 1` characters, so snprintf
never truncates it), and the count handed to `write` never exceeds the
line buffer's length.  The pid renders in at most 11 characters (32-bit
int) and the timestamp in at most 19 (fixed strftime format or the
no-time fallback marker); `SLOG_MSG_MAX_LEN ≥ 64` is the compile-time
guard of slog.c:43-45. -/
theorem C8_truncation_safety (msgMax fsyncMode : Nat) (fd : Int)
    (pid time : List Char) (level : Nat) (body : List Char) (sz : Nat)
    (hmax : 64 ≤ msgMax) (hpid : pid.length ≤ 11) (htime : time.length ≤ 19) :
    (slogMsg msgMax sz body).length ≤ msgMax ∧
    (slogLineFull pid time (levelLetter level) (slogMsg msgMax sz body)).length
      ≤ 2 * msgMax - 1 ∧
    bytesOut (slog_internal msgMax fsyncMode fd pid time level body sz)
      ≤ 2 * msgMax := by
  have hmsg := slogMsg_length_le msgMax sz body
  have hline : (slogLineFull pid time (levelLetter level)
      (slogMsg msgMax sz body)).length ≤ 2 * msgMax - 1 := by
    rw [slogLineFull_length]
    omega
  refine ⟨hmsg, hline, ?_⟩
  by_cases hfd : fd = 0
  · simp [slog_internal, hfd, bytesOut]
  · rw [slog_internal, if_neg hfd, bytesOut_wr]
    have htail : bytesOut (if fsyncMode = LOG_FSYNC_ALL
        then [SinkOp.flush] else []) = 0 := by
      split <;> rfl
    rw [htail, slogLineFull_length]
    omega

/-- Witness for C8: a 200-character body against SLOG_MSG_MAX_LEN = 64. -/
theorem C8_truncation_safety_witness :
    ((64 : Nat) ≤ 64 ∧ ("123".data).length ≤ 11 ∧
      ("01 Jan 00:00:00".data).length ≤ 19) ∧
    ((slogMsg 64 200 (List.replicate 200 'a')).length ≤ 64 ∧
     (slogLineFull "123".data "01 Jan 00:00:00".data (levelLetter WEBDIS_ERROR)
        (slogMsg 64 200 (List.replicate 200 'a'))).length ≤ 2 * 64 - 1 ∧
     bytesOut (slog_internal 64 LOG_FSYNC_ALL 2 "123".data "01 Jan 00:00:00".data
        WEBDIS_ERROR (List.replicate 200 'a') 200) ≤ 2 * 64) :=
  ⟨⟨by decide, by decide, by decide⟩,
   C8_truncation_safety 64 LOG_FSYNC_ALL 2 "123".data "01 Jan 00:00:00".data
     WEBDIS_ERROR (List.replicate 200 'a') 200 (by decide) (by decide) (by decide)⟩

/-- C9: under LOG_FSYNC_ALL every emitted write is immediately followed
by a flush before slog_internal returns; under LOG_FSYNC_MILLIS the
write path performs no flush and the only flusher is the persistent
timer installed with a period of exactly n milliseconds, whose tick
flushes; under LOG_FSYNC_NONE the write path performs no flush and no
timer is installed. -/
theorem C9_fsync_policy (msgMax : Nat) (fd : Int) (pid time : List Char)
    (level : Nat) (body : List Char) (sz : Nat) (m : Nat) (hfd : fd ≠ 0) :
    (∃ c n, slog_internal msgMax LOG_FSYNC_ALL fd pid time level body sz =
        [SinkOp.wr c n, SinkOp.flush]) ∧
    (SinkOp.flush ∉ slog_internal msgMax LOG_FSYNC_MILLIS fd pid time level body sz ∧
      ∃ t, slog_fsync_init LOG_FSYNC_MILLIS m = some t ∧ t.persistent = true ∧
        timerMicros t.tv_sec t.tv_usec = m * 1000 ∧
        slog_fsync_tick = [SinkOp.flush]) ∧
    (SinkOp.flush ∉ slog_internal msgMax LOG_FSYNC_NONE fd pid time level body sz ∧
      slog_fsync_init LOG_FSYNC_NONE m = none) := by
  refine ⟨?_, ⟨?_, ?_⟩, ?_, ?_⟩
  · refine ⟨(slogLineFull pid time (levelLetter level)
        (slogMsg msgMax sz body)).take (2 * msgMax - 1),
      (slogLineFull pid time (levelLetter level) (slogMsg msgMax sz body)).length, ?_⟩
    rw [slog_internal, if_neg hfd]
    simp [LOG_FSYNC_ALL]
  · rw [slog_internal, if_neg hfd]
    simp [LOG_FSYNC_MILLIS, LOG_FSYNC_ALL]
  · refine ⟨⟨true, m * 1000 / 1000000, m * 1000 % 1000000⟩, ?_, rfl, ?_, rfl⟩
    · simp [slog_fsync_init, LOG_FSYNC_MILLIS]
    · show m * 1000 / 1000000 * 1000000 + m * 1000 % 1000000 = m * 1000
      omega
  · rw [slog_internal, if_neg hfd]
    simp [LOG_FSYNC_NONE, LOG_FSYNC_ALL]
  · simp [slog_fsync_init, LOG_FSYNC_NONE, LOG_FSYNC_MILLIS]

/-- Witness for C9 at concrete inputs (stderr descriptor, 150 ms period). -/
theorem C9_fsync_policy_witness :
    (∃ c n, slog_internal 4096 LOG_FSYNC_ALL 2 "99".data "01 Jan 00:00:00".data
        WEBDIS_ERROR "hello".data 5 = [SinkOp.wr c n, SinkOp.flush]) ∧
    (SinkOp.flush ∉ slog_internal 4096 LOG_FSYNC_MILLIS 2 "99".data
        "01 Jan 00:00:00".data WEBDIS_ERROR "hello".data 5 ∧
      ∃ t, slog_fsync_init LOG_FSYNC_MILLIS 150 = some t ∧ t.persistent = true ∧
        timerMicros t.tv_sec t.tv_usec = 150 * 1000 ∧
        slog_fsync_tick = [SinkOp.flush]) ∧
    (SinkOp.flush ∉ slog_internal 4096 LOG_FSYNC_NONE 2 "99".data
        "01 Jan 00:00:00".data WEBDIS_ERROR "hello".data 5 ∧
      slog_fsync_init LOG_FSYNC_NONE 150 = none) :=
  C9_fsync_policy 4096 2 "99".data "01 Jan 00:00:00".data WEBDIS_ERROR
    "hello".data 5 150 (by decide)

end Wbdis
